import Mathlib

/-!
Verification development for `custom_components/hahm/services.py`, the
service-registration and dispatch shim of the `custom_homematic` integration.

The Python module is shallowly embedded: pure lookup helpers become Lean
functions, the async service handlers become functions producing an
`Except String (List Event)` — the list of backend calls performed (in order),
or the exception that escaped the handler.  The external collaborators
(device registry, control units, backend central) are modelled as explicit
state passed to each function; Python values crossing the service boundary are
modelled by the inductive type `Value`.
-/

set_option autoImplicit false
set_option maxRecDepth 8000

namespace HahmServices

/-- Decidable equality for `Except`, so that concrete handler runs can be
checked by `decide`. -/
def exceptDecEq {ε α : Type} [DecidableEq ε] [DecidableEq α] :
    (a b : Except ε α) → Decidable (a = b)
  | .ok a, .ok b =>
      if h : a = b then .isTrue (by rw [h]) else .isFalse (by intro hc; cases hc; exact h rfl)
  | .ok _, .error _ => .isFalse (by intro hc; cases hc)
  | .error _, .ok _ => .isFalse (by intro hc; cases hc)
  | .error e, .error f =>
      if h : e = f then .isTrue (by rw [h]) else .isFalse (by intro hc; cases hc; exact h rfl)

instance {ε α : Type} [DecidableEq ε] [DecidableEq α] : DecidableEq (Except ε α) :=
  exceptDecEq

/-- A Python value as it appears in service-call data: int, float (modelled as
an exact rational, sufficient for the decimal literals handled here), bool,
str, or a naive `datetime` (year, month, day, hour, minute, second). -/
inductive Value where
  | vInt : Int → Value
  | vFloat : Rat → Value
  | vBool : Bool → Value
  | vStr : String → Value
  | vDateTime : Nat → Nat → Nat → Nat → Nat → Nat → Value
  deriving DecidableEq, Repr

/-- Python truthiness (`bool(value)`): zero numbers, empty strings are falsy;
`datetime` objects are always truthy. -/
def pyTruthy : Value → Bool
  | .vInt n => n != 0
  | .vFloat q => q != 0
  | .vBool b => b
  | .vStr s => s != ""
  | .vDateTime _ _ _ _ _ _ => true

/-- Numeric value of a digit string, most significant digit first. -/
def digitsVal (cs : List Char) : Nat :=
  cs.foldl (fun a c => a * 10 + (c.toNat - 48)) 0

/-- Parse a nonempty all-digit character list, as the digit run of a Python
numeric literal. -/
def natOfDigits (cs : List Char) : Option Nat :=
  if !cs.isEmpty && cs.all Char.isDigit then some (digitsVal cs) else none

/-- Parse an optionally signed integer literal, as Python `int(str)`. -/
def intOfChars : List Char → Option Int
  | '-' :: cs => (natOfDigits cs).map (fun n => -(n : Int))
  | '+' :: cs => (natOfDigits cs).map (fun n => (n : Int))
  | cs => (natOfDigits cs).map (fun n => (n : Int))

/-- Parse an unsigned decimal literal (digits, optionally a point and more
digits; at least one digit overall), as the core of Python `float(str)`. -/
def ratOfCharsUnsigned (cs : List Char) : Option Rat :=
  match cs.splitOn '.' with
  | [ip] => (natOfDigits ip).map (fun n => (n : Rat))
  | [ip, fp] =>
      if ip.all Char.isDigit && fp.all Char.isDigit && (!ip.isEmpty || !fp.isEmpty) then
        some ((digitsVal ip : Rat) + (digitsVal fp : Rat) / ((10 : Rat) ^ fp.length))
      else none
  | _ => none

/-- Parse an optionally signed decimal literal, as Python `float(str)`. -/
def ratOfChars : List Char → Option Rat
  | '-' :: cs => (ratOfCharsUnsigned cs).map (fun q => -q)
  | '+' :: cs => ratOfCharsUnsigned cs
  | cs => ratOfCharsUnsigned cs

/-- Python `int(value)`: ints unchanged, floats truncated toward zero, bools
to 0/1, strings parsed as integer literals; anything else raises. -/
def pyInt : Value → Except String Value
  | .vInt n => .ok (.vInt n)
  | .vFloat q => .ok (.vInt (if 0 ≤ q then q.floor else q.ceil))
  | .vBool b => .ok (.vInt (if b then 1 else 0))
  | .vStr s =>
      match intOfChars s.data with
      | some n => .ok (.vInt n)
      | none => .error "ValueError: invalid literal for int"
  | .vDateTime _ _ _ _ _ _ => .error "TypeError: int() argument"

/-- Python `float(value)`: floats unchanged, ints and bools widened, strings
parsed as decimal literals; anything else raises. -/
def pyFloat : Value → Except String Value
  | .vInt n => .ok (.vFloat (n : Rat))
  | .vFloat q => .ok (.vFloat q)
  | .vBool b => .ok (.vFloat (if b then 1 else 0))
  | .vStr s =>
      match ratOfChars s.data with
      | some q => .ok (.vFloat q)
      | none => .error "ValueError: could not convert string to float"
  | .vDateTime _ _ _ _ _ _ => .error "TypeError: float() argument"

/-- Left-pad a numeral with zeros to the given width. -/
def padNum (width n : Nat) : String :=
  let s := toString n
  String.mk (List.replicate (width - s.length) '0') ++ s

/-- Python `str(value)` (the rendering of floats and datetimes is a faithful
rendering of the common cases; no claim inspects it beyond identity on
strings). -/
def pyStr : Value → Value
  | .vInt n => .vStr (toString n)
  | .vFloat q => .vStr (toString q.num ++ (if q.den == 1 then ".0" else "/" ++ toString q.den))
  | .vBool b => .vStr (if b then "True" else "False")
  | .vStr s => .vStr s
  | .vDateTime y mo d h mi s =>
      .vStr (padNum 4 y ++ "-" ++ padNum 2 mo ++ "-" ++ padNum 2 d ++ " " ++
             padNum 2 h ++ ":" ++ padNum 2 mi ++ ":" ++ padNum 2 s)

def isLeapYear (y : Nat) : Bool :=
  y % 4 == 0 && (y % 100 != 0 || y % 400 == 0)

def daysInMonth (y m : Nat) : Nat :=
  if m == 2 then (if isLeapYear y then 29 else 28)
  else if m == 4 || m == 6 || m == 9 || m == 11 then 30
  else 31

/-- A time field of the pattern `%H:%M:%S`: one or two digits. -/
def timeField (cs : List Char) : Option Nat :=
  if (cs.length == 1 || cs.length == 2) && cs.all Char.isDigit then
    some (digitsVal cs)
  else none

/-- `datetime.strptime(s, "%Y%m%dT%H:%M:%S")`: an 8-digit `YYYYMMDD` date, a
literal `T`, then colon-separated hour, minute, second; field ranges validated
as `datetime` does (seconds up to 61 for leap seconds). -/
def strptimeHm (s : String) : Option Value :=
  match s.data.splitOn 'T' with
  | [datePart, timePart] =>
      if datePart.length == 8 && datePart.all Char.isDigit then
        let y := digitsVal (datePart.take 4)
        let mo := digitsVal ((datePart.drop 4).take 2)
        let d := digitsVal (datePart.drop 6)
        match (timePart.splitOn ':').map timeField with
        | [some h, some mi, some sec] =>
            if 1 ≤ y ∧ 1 ≤ mo ∧ mo ≤ 12 ∧ 1 ≤ d ∧ d ≤ daysInMonth y mo ∧
               h ≤ 23 ∧ mi ≤ 59 ∧ sec ≤ 61 then
              some (.vDateTime y mo d h mi sec)
            else none
        | _ => none
      else none
  | _ => none

/-- `datetime.strptime(value, "%Y%m%dT%H:%M:%S")` on a service value: only a
string parses; a malformed string raises `ValueError`, a non-string raises
`TypeError`. -/
def pyStrptime : Value → Except String Value
  | .vStr s =>
      match strptimeHm s with
      | some dt => .ok dt
      | none => .error "ValueError: time data does not match format"
  | _ => .error "TypeError: strptime() argument must be str"

/-- The value coercion of `_async_service_set_device_value` (services.py lines
226-237): `if value_type := service.data.get(ATTR_VALUE_TYPE):` — a missing or
falsy (empty-string) `value_type` leaves the value unchanged; otherwise the
`int` / `double` / `boolean` / `dateTime.iso8601` chain applies, with `str()`
as the default branch. -/
def convertValue (valueType : Option String) (value : Value) : Except String Value :=
  match valueType with
  | none => .ok value
  | some vt =>
      if vt == "" then .ok value
      else if vt == "int" then pyInt value
      else if vt == "double" then pyFloat value
      else if vt == "boolean" then .ok (.vBool (pyTruthy value))
      else if vt == "dateTime.iso8601" then pyStrptime value
      else .ok (pyStr value)

/-! ## External collaborators

The device registry, the per-config-entry `ControlUnit` objects stored in
`hass.data[DOMAIN]`, and the hub are modelled as explicit state.  The pieces
whose code lives outside `services.py` (in `helpers.py` / `control_unit.py`,
not part of the given source) are modelled from the spec and say so in their
doc comments. -/

/-- The service-platform tag of an entity (`HmPlatform`); only `CLIMATE` is
inspected by this module. -/
inductive HmPlatform where
  | climate
  | other : String → HmPlatform
  deriving DecidableEq, Repr

/-- A backend entity (`BaseEntity`); `isIPThermostat` records whether the
object is an instance of `IPThermostat` (the `isinstance` check of the away
mode handlers). -/
structure HmEntity where
  entityId : String
  name : String
  isIPThermostat : Bool
  platform : HmPlatform
  deriving DecidableEq, Repr

/-- The hub object of a control unit (`HaHub`). -/
structure HaHub where
  entityId : String
  deriving DecidableEq, Repr

/-- A `ControlUnit` (one per config entry, stored in `hass.data[DOMAIN]`):
`clients` is the set of interface ids for which `central.clients.get(...)`
returns a (truthy) client object; `entities` are the unit's backend entities;
`hub` is the optional hub. -/
structure ControlUnit where
  clients : List String
  entities : List HmEntity
  hub : Option HaHub
  deriving DecidableEq, Repr

/-- A device-registry entry.  Modelled from the spec: the registry lookup
`resolve(identifiers) -> (device_address, interface_id) | not-found` — the
identifier-set decoding done by `helpers.get_device_address_at_interface_from_identifiers`
(in `helpers.py`, not part of the given source) is abstracted into the
optional `(device_address, interface_id)` pair the entry yields. -/
structure DeviceEntry where
  addressInterface : Option (String × String)
  deriving DecidableEq, Repr

/-- Modelled from the spec: `resolve(identifiers) -> (device_address,
interface_id) | not-found` (`helpers.get_device_address_at_interface_from_identifiers`,
whose body is not part of the given source). -/
def get_device_address_at_interface_from_identifiers
    (entry : DeviceEntry) : Option (String × String) :=
  entry.addressInterface

/-- The ambient Home Assistant state visible to this module: the device
registry (device id → entry) and `hass.data[DOMAIN]` (the control units, in
dict iteration order). -/
structure Hass where
  deviceRegistry : List (String × DeviceEntry)
  controlUnits : List ControlUnit
  deriving DecidableEq, Repr

/-- `device_registry.async_get(device_id)`: first registry entry with the
given id. -/
def dr_async_get (hass : Hass) (deviceId : String) : Option DeviceEntry :=
  (hass.deviceRegistry.find? (fun kv => kv.1 == deviceId)).map (fun kv => kv.2)

/-- `_get_interface_channel_address` (services.py lines 395-414): registry
lookup, identifier decoding, then `channel_address = f"{device_address}:{channel}"`. -/
def _get_interface_channel_address (hass : Hass) (deviceId : String)
    (channel : Int) : Option (String × String) :=
  match dr_async_get hass deviceId with
  | none => none
  | some entry =>
      match get_device_address_at_interface_from_identifiers entry with
      | none => none
      | some (deviceAddress, interfaceId) =>
          some (interfaceId, deviceAddress ++ ":" ++ toString channel)

/-- Modelled from the spec: per-control-unit entity resolution
(`control_unit.async_get_hm_entity`, whose body is not part of the given
source) — query one control unit for an entity by id. -/
def ControlUnit.async_get_hm_entity (cu : ControlUnit) (entityId : String) :
    Option HmEntity :=
  cu.entities.find? (fun e => e.entityId == entityId)

/-- Modelled from the spec: per-control-unit platform enumeration
(`control_unit.async_get_hm_entities_by_platform`, whose body is not part of
the given source) — the unit's entities of the given platform. -/
def ControlUnit.async_get_hm_entities_by_platform (cu : ControlUnit)
    (platform : HmPlatform) : List HmEntity :=
  cu.entities.filter (fun e => e.platform == platform)

/-- `_get_entity` (services.py lines 417-424): linear scan over the control
units, returning the first unit's match.  (The `isinstance(hm_entity,
BaseEntity)` guard always holds here: every modelled entity is a
`BaseEntity`.) -/
def _get_entity (hass : Hass) (entityId : String) : Option HmEntity :=
  hass.controlUnits.findSome? (fun cu => cu.async_get_hm_entity entityId)

/-- `_get_entities_by_platform` (services.py lines 427-437): concatenate the
platform entities of every control unit, in order. -/
def _get_entities_by_platform (hass : Hass) (platform : HmPlatform) :
    List HmEntity :=
  hass.controlUnits.flatMap
    (fun cu => cu.async_get_hm_entities_by_platform platform)

/-- `_get_cu_by_interface_id` (services.py lines 451-461): first control unit
whose `central.clients.get(interface_id)` is truthy. -/
def _get_cu_by_interface_id (hass : Hass) (interfaceId : String) :
    Option ControlUnit :=
  hass.controlUnits.find? (fun cu => cu.clients.contains interfaceId)

/-- `_get_hub_by_entity_id` (services.py lines 464-476): first control unit
with a hub whose entity id matches. -/
def _get_hub_by_entity_id (hass : Hass) (entityId : String) : Option HaHub :=
  match hass.controlUnits.find?
      (fun cu => match cu.hub with
        | some hub => hub.entityId == entityId
        | none => false) with
  | some cu => cu.hub
  | none => none

/-! ## Backend calls and the service handlers

Each handler is embedded as a function returning `Except String (List Event)`:
the ordered list of backend operations it performed (`asyncio.sleep` included),
or the exception that escaped it.  The external backend is a `Backend` record
saying, per operation, whether the call raises (`some msg`) or succeeds
(`none`).  The handlers contain no `try/except`, so a raising backend call
aborts the handler with that error. -/

/-- One observable external effect of a handler. -/
inductive Event where
  | setValue (interfaceId channelAddress parameter : String) (value : Value)
      (rxMode : Option String)
  | putParamset (interfaceId channelAddress paramsetKey : String)
      (paramset : List (String × Value)) (rxMode : Option String)
  | setInstallMode (interfaceId : String) (t : Int) (mode : Int)
      (deviceAddress : Option String)
  | setVariable (name : String) (value : Value)
  | enableAwayMode (entityName : String) (start finish : Value) (awayTemp : Rat)
  | disableAwayMode (entityName : String)
  | sleep (seconds : Nat)
  deriving DecidableEq, Repr

/-- Per-operation failure behaviour of the external backend: `some msg` means
the operation raises `msg` when called. -/
structure Backend where
  setValueFail : Option String
  putParamsetFail : Option String
  setInstallModeFail : Option String
  setVariableFail : Option String
  enableAwayFail : Option String
  disableAwayFail : Option String
  deriving DecidableEq, Repr

/-- A backend whose operations all succeed. -/
def bkOk : Backend := ⟨none, none, none, none, none, none⟩

/-- Perform one backend call: emit the event, or raise per the backend's
configured behaviour. -/
def bkCall (fail : Option String) (ev : Event) : Except String (List Event) :=
  match fail with
  | some e => .error e
  | none => .ok [ev]

/-- Service-call data of `set_variable_value` after schema validation. -/
structure SetVariableValueData where
  entityId : String
  name : String
  value : Value
  deriving DecidableEq, Repr

/-- `_async_service_set_variable_value` (services.py lines 202-211): resolve
the hub by entity id; call `hub.async_set_variable`; silently return when no
hub matches. -/
def _async_service_set_variable_value (hass : Hass) (bk : Backend)
    (d : SetVariableValueData) : Except String (List Event) :=
  match _get_hub_by_entity_id hass d.entityId with
  | some _hub => bkCall bk.setVariableFail (.setVariable d.name d.value)
  | none => .ok []

/-- Service-call data of `set_device_value` after schema validation. -/
structure SetDeviceValueData where
  deviceId : String
  channel : Int
  parameter : String
  value : Value
  valueType : Option String
  rxMode : Option String
  deriving DecidableEq, Repr

/-- `_async_service_set_device_value` (services.py lines 214-269): coerce the
value per `value_type`, resolve the routing pair, and — when the pair exists,
both components are truthy (Python non-empty strings), and a control unit has
a client for the interface id — call `central.set_value`. -/
def _async_service_set_device_value (hass : Hass) (bk : Backend)
    (d : SetDeviceValueData) : Except String (List Event) :=
  match convertValue d.valueType d.value with
  | .error e => .error e
  | .ok value =>
      match _get_interface_channel_address hass d.deviceId d.channel with
      | none => .ok []
      | some (interfaceId, channelAddress) =>
          if interfaceId != "" && channelAddress != "" then
            match _get_cu_by_interface_id hass interfaceId with
            | some _cu =>
                bkCall bk.setValueFail
                  (.setValue interfaceId channelAddress d.parameter value d.rxMode)
            | none => .ok []
          else .ok []

/-- Service-call data of `put_paramset` after schema validation. -/
structure PutParamsetData where
  deviceId : String
  channel : Int
  paramsetKey : String
  paramset : List (String × Value)
  rxMode : Option String
  deriving DecidableEq, Repr

/-- `_async_service_put_paramset` (services.py lines 350-392): resolve the
routing pair and — when the pair exists, both components are truthy, and a
control unit has a client for the interface id — call `central.put_paramset`. -/
def _async_service_put_paramset (hass : Hass) (bk : Backend)
    (d : PutParamsetData) : Except String (List Event) :=
  match _get_interface_channel_address hass d.deviceId d.channel with
  | none => .ok []
  | some (interfaceId, channelAddress) =>
      if interfaceId != "" && channelAddress != "" then
        match _get_cu_by_interface_id hass interfaceId with
        | some _cu =>
            bkCall bk.putParamsetFail
              (.putParamset interfaceId channelAddress d.paramsetKey d.paramset
                d.rxMode)
        | none => .ok []
      else .ok []

/-- Service-call data of `set_install_mode` after schema validation. -/
structure SetInstallModeData where
  interfaceId : String
  time : Int
  mode : Int
  deviceAddress : Option String
  deriving DecidableEq, Repr

/-- `_async_service_set_install_mode` (services.py lines 335-347): resolve the
control unit by interface id; call `central.set_install_mode`; silently return
when none matches. -/
def _async_service_set_install_mode (hass : Hass) (bk : Backend)
    (d : SetInstallModeData) : Except String (List Event) :=
  match _get_cu_by_interface_id hass d.interfaceId with
  | some _cu =>
      bkCall bk.setInstallModeFail
        (.setInstallMode d.interfaceId d.time d.mode d.deviceAddress)
  | none => .ok []

/-- The validated `entity_id` field of the away-mode services
(`comp_entity_ids`): the literal `"all"` or a list of entity ids. -/
inductive EntityIds where
  | all
  | ids : List String → EntityIds
  deriving DecidableEq, Repr

/-- Service-call data of `enable_away_mode_by_calendar` after schema
validation. -/
structure AwayModeData where
  entityIds : EntityIds
  start : Value
  finish : Value
  awayTemp : Rat
  deriving DecidableEq, Repr

/-- The inner `_enable_away_mode_by_calendar` closure (services.py lines
281-296): skip non-`IPThermostat` entities; otherwise call
`enable_away_mode_by_calendar(start, end, away_temperature)` then
`asyncio.sleep(1)`. -/
def _enable_away_mode_by_calendar (bk : Backend) (start finish : Value)
    (awayTemp : Rat) (entity : HmEntity) : Except String (List Event) :=
  if entity.isIPThermostat then
    match bkCall bk.enableAwayFail
        (.enableAwayMode entity.name start finish awayTemp) with
    | .error e => .error e
    | .ok evs => .ok (evs ++ [.sleep 1])
  else .ok []

/-- Run a per-entity action over a list of entities in order, concatenating
the emitted events; a raised exception aborts the remainder (the `for` loops
of the away-mode handlers). -/
def runForEntities (f : HmEntity → Except String (List Event)) :
    List HmEntity → Except String (List Event)
  | [] => .ok []
  | e :: rest =>
      match f e with
      | .error err => .error err
      | .ok evs =>
          match runForEntities f rest with
          | .error err => .error err
          | .ok more => .ok (evs ++ more)

/-- Resolve each listed entity id via `_get_entity` and run the per-entity
action on the ids that resolve, in order (the `else` branches of the
away-mode handlers). -/
def runForEntityIds (hass : Hass) (f : HmEntity → Except String (List Event)) :
    List String → Except String (List Event)
  | [] => .ok []
  | eid :: rest =>
      match (match _get_entity hass eid with
             | some e => f e
             | none => .ok []) with
      | .error err => .error err
      | .ok evs =>
          match runForEntityIds hass f rest with
          | .error err => .error err
          | .ok more => .ok (evs ++ more)

/-- `_async_service_enable_away_mode_by_calendar` (services.py lines 272-305):
with `entity_ids == "all"`, apply the closure to every climate-platform entity
across all control units; otherwise resolve each listed id individually. -/
def _async_service_enable_away_mode_by_calendar (hass : Hass) (bk : Backend)
    (d : AwayModeData) : Except String (List Event) :=
  let f := _enable_away_mode_by_calendar bk d.start d.finish d.awayTemp
  match d.entityIds with
  | .all => runForEntities f (_get_entities_by_platform hass .climate)
  | .ids eids => runForEntityIds hass f eids

/-- Service-call data of `disable_away_mode` after schema validation. -/
structure DisableAwayModeData where
  entityIds : EntityIds
  deriving DecidableEq, Repr

/-- The inner `_disable_away_mode` closure (services.py lines 314-323): skip
non-`IPThermostat` entities; otherwise call `disable_away_mode()` then
`asyncio.sleep(1)`. -/
def _disable_away_mode (bk : Backend) (entity : HmEntity) :
    Except String (List Event) :=
  if entity.isIPThermostat then
    match bkCall bk.disableAwayFail (.disableAwayMode entity.name) with
    | .error e => .error e
    | .ok evs => .ok (evs ++ [.sleep 1])
  else .ok []

/-- `_async_service_disable_away_mode` (services.py lines 308-332): same
resolution and sequencing as the enable handler, calling the disable
closure. -/
def _async_service_disable_away_mode (hass : Hass) (bk : Backend)
    (d : DisableAwayModeData) : Except String (List Event) :=
  match d.entityIds with
  | .all => runForEntities (_disable_away_mode bk) (_get_entities_by_platform hass .climate)
  | .ids eids => runForEntityIds hass (_disable_away_mode bk) eids

/-! ## Registration, teardown, and dispatch -/

def SERVICE_PUT_PARAMSET : String := "put_paramset"
def SERVICE_ENABLE_AWAY_MODE_BY_CALENDAR : String := "enable_away_mode_by_calendar"
def SERVICE_DISABLE_AWAY_MODE : String := "disable_away_mode"
def SERVICE_SET_DEVICE_VALUE : String := "set_device_value"
def SERVICE_SET_INSTALL_MODE : String := "set_install_mode"
def SERVICE_SET_VARIABLE_VALUE : String := "set_variable_value"

/-- `HAHM_SERVICES` (services.py lines 57-63), verbatim: the list teardown
iterates over. -/
def HAHM_SERVICES : List String :=
  [SERVICE_PUT_PARAMSET,
   SERVICE_ENABLE_AWAY_MODE_BY_CALENDAR,
   SERVICE_SET_DEVICE_VALUE,
   SERVICE_SET_INSTALL_MODE,
   SERVICE_SET_VARIABLE_VALUE]

/-- `hass.services.async_register` restricted to the integration's domain: the
platform keeps one handler per service name (re-registration overwrites, so
the name set gains the name). -/
def services_async_register (registered : List String) (service : String) :
    List String :=
  if registered.contains service then registered else registered ++ [service]

/-- `hass.services.async_remove` restricted to the integration's domain. -/
def services_async_remove (registered : List String) (service : String) :
    List String :=
  registered.erase service

/-- `async_setup_services` (services.py lines 123-190), restricted to the
registered-name state it affects: when `hass.services.async_services().get(DOMAIN)`
is truthy (some service already registered for the domain) it returns at once;
otherwise it registers the six services in source order (`set_install_mode`
via `async_register_admin_service`, which also registers the name). -/
def async_setup_services (registered : List String) : List String :=
  if !registered.isEmpty then registered
  else
    [SERVICE_SET_VARIABLE_VALUE,
     SERVICE_ENABLE_AWAY_MODE_BY_CALENDAR,
     SERVICE_DISABLE_AWAY_MODE,
     SERVICE_SET_DEVICE_VALUE,
     SERVICE_SET_INSTALL_MODE,
     SERVICE_PUT_PARAMSET].foldl services_async_register registered

/-- `async_unload_services` (services.py lines 193-199): when
`hass.data[DOMAIN]` is truthy (control units remain) it returns at once;
otherwise it removes each name of `HAHM_SERVICES`. -/
def async_unload_services (domainData : List ControlUnit)
    (registered : List String) : List String :=
  if !domainData.isEmpty then registered
  else HAHM_SERVICES.foldl services_async_remove registered

/-- A tag per private service handler, to observe which handlers the shared
dispatcher invokes. -/
inductive HandlerTag where
  | putParamset
  | enableAwayModeByCalendar
  | disableAwayMode
  | setInstallMode
  | setDeviceValue
  | setVariableValue
  deriving DecidableEq, Repr

/-- `async_call_hahm_service` (services.py lines 129-147), with the awaited
handlers abstracted to tags: the body is an `if`, an `if`, and an
`if/elif/elif/elif` chain, so the result is the concatenation of what each of
the three statements invokes. -/
def async_call_hahm_service (serviceName : String) : List HandlerTag :=
  (if serviceName == SERVICE_PUT_PARAMSET then [.putParamset] else []) ++
  (if serviceName == SERVICE_ENABLE_AWAY_MODE_BY_CALENDAR then
    [.enableAwayModeByCalendar] else []) ++
  (if serviceName == SERVICE_DISABLE_AWAY_MODE then [.disableAwayMode]
   else if serviceName == SERVICE_SET_INSTALL_MODE then [.setInstallMode]
   else if serviceName == SERVICE_SET_DEVICE_VALUE then [.setDeviceValue]
   else if serviceName == SERVICE_SET_VARIABLE_VALUE then [.setVariableValue]
   else [])

/-! ## The `enable_away_mode_by_calendar` schema

`SCHEMA_SERVICE_ENABLE_AWAY_MODE_BY_CALENDAR` (services.py lines 73-82),
embedded as a validator from raw service-call data to validated data,
following voluptuous semantics: unknown keys are rejected, required keys must
be present (the temperature defaulting to `18.0` when absent), and each value
runs through its declared validator chain. -/

def ATTR_ENTITY_ID : String := "entity_id"
def ATTR_AWAY_START_TIME : String := "away_start_time"
def ATTR_AWAY_END_TIME : String := "away_end_time"
def ATTR_AWAY_SET_POINT_TEMPERATURE : String := "away_set_point_temperature"

/-- Raw (pre-validation) service-call data: key/value pairs. -/
def RawData : Type := List (String × Value)

/-- First value for a key in raw service-call data. -/
def rawLookup (raw : RawData) (key : String) : Option Value :=
  ((raw : List (String × Value)).find? (fun kv => kv.1 == key)).map (fun kv => kv.2)

/-- `homeassistant.helpers.config_validation.comp_entity_ids`: the (lowercased)
literal `"all"`, or a comma-separated string / list of entity ids, each of
which must look like `domain.object` (modelled: contain a dot). -/
def comp_entity_ids (v : Value) : Except String EntityIds :=
  match v with
  | .vStr s =>
      if s.toLower == "all" then .ok .all
      else
        let pieces := (s.splitOn ",").map (fun p => p.trim.toLower)
        if !pieces.isEmpty && pieces.all (fun p => p.contains '.') then
          .ok (.ids pieces)
        else .error "Invalid entity ID"
  | _ => .error "Invalid entity ID"

/-- `cv.datetime`: the value must already be a `datetime`. -/
def cv_datetime (v : Value) : Except String Value :=
  match v with
  | .vDateTime y mo d h mi s => .ok (.vDateTime y mo d h mi s)
  | _ => .error "Invalid datetime specified"

/-- `vol.Coerce(float)`: Python `float(value)`, failing with `CoerceInvalid`. -/
def vol_coerce_float (v : Value) : Except String Rat :=
  match pyFloat v with
  | .ok (.vFloat q) => .ok q
  | _ => .error "expected float"

/-- `vol.Range(min=4.5, max=30.5)` applied after the coercion. -/
def vol_range_away_temp (q : Rat) : Except String Rat :=
  if 4.5 ≤ q ∧ q ≤ 30.5 then .ok q
  else .error "value must be at most 30.5 and at least 4.5"

/-- The keys `SCHEMA_SERVICE_ENABLE_AWAY_MODE_BY_CALENDAR` declares; any other
key is rejected (voluptuous `PREVENT_EXTRA`). -/
def awayModeSchemaKeys : List String :=
  [ATTR_ENTITY_ID, ATTR_AWAY_START_TIME, ATTR_AWAY_END_TIME,
   ATTR_AWAY_SET_POINT_TEMPERATURE]

/-- `SCHEMA_SERVICE_ENABLE_AWAY_MODE_BY_CALENDAR` (services.py lines 73-82) as
a validator: required `entity_id` through `comp_entity_ids`, required start
and end through `cv.datetime`, and `away_set_point_temperature` — defaulted to
`18.0` when absent — through `vol.Coerce(float)` then
`vol.Range(min=4.5, max=30.5)`. -/
def SCHEMA_SERVICE_ENABLE_AWAY_MODE_BY_CALENDAR (raw : RawData) :
    Except String AwayModeData :=
  if !(raw : List (String × Value)).all (fun kv => awayModeSchemaKeys.contains kv.1) then
    .error "extra keys not allowed"
  else
    match rawLookup raw ATTR_ENTITY_ID with
    | none => .error "required key not provided: entity_id"
    | some eidsV =>
        match comp_entity_ids eidsV with
        | .error e => .error e
        | .ok eids =>
            match rawLookup raw ATTR_AWAY_START_TIME with
            | none => .error "required key not provided: away_start_time"
            | some startV =>
                match cv_datetime startV with
                | .error e => .error e
                | .ok start =>
                    match rawLookup raw ATTR_AWAY_END_TIME with
                    | none => .error "required key not provided: away_end_time"
                    | some endV =>
                        match cv_datetime endV with
                        | .error e => .error e
                        | .ok finish =>
                            match vol_coerce_float
                                ((rawLookup raw ATTR_AWAY_SET_POINT_TEMPERATURE).getD
                                  (.vFloat 18.0)) with
                            | .error e => .error e
                            | .ok q =>
                                match vol_range_away_temp q with
                                | .error e => .error e
                                | .ok temp => .ok ⟨eids, start, finish, temp⟩

/-- The registered `enable_away_mode_by_calendar` service as the platform runs
it: schema validation first, the handler only on validated data. -/
def enable_away_mode_service_call (hass : Hass) (bk : Backend) (raw : RawData) :
    Except String (List Event) :=
  match SCHEMA_SERVICE_ENABLE_AWAY_MODE_BY_CALENDAR raw with
  | .error e => .error e
  | .ok d => _async_service_enable_away_mode_by_calendar hass bk d

/-- The `vol.In` list of allowed `value_type` values in
`SCHEMA_SERVICE_SET_DEVICE_VALUE` (services.py lines 105-107). -/
def allowedValueTypes : List String :=
  ["boolean", "dateTime.iso8601", "double", "int", "string"]

/-! ## Theorems -/

/-- Claim C1: teardown is claimed to unregister each of the six service names
setup registered.  Evaluating the code at the failing input — teardown with no
control units remaining, right after a fresh setup — shows `HAHM_SERVICES`
omits `disable_away_mode`: setup registers all six names, but unload leaves
exactly `disable_away_mode` registered. -/
theorem async_unload_services_misses_disable_away_mode :
    async_setup_services [] =
      [SERVICE_SET_VARIABLE_VALUE, SERVICE_ENABLE_AWAY_MODE_BY_CALENDAR,
       SERVICE_DISABLE_AWAY_MODE, SERVICE_SET_DEVICE_VALUE,
       SERVICE_SET_INSTALL_MODE, SERVICE_PUT_PARAMSET] ∧
    async_unload_services [] (async_setup_services []) =
      [SERVICE_DISABLE_AWAY_MODE] := by
  decide

/-- Claim C8: `async_setup_services` is idempotent — when some service is
already registered for the domain, the call leaves the registered-service
state unchanged. -/
theorem async_setup_services_idempotent (registered : List String)
    (h : registered ≠ []) : async_setup_services registered = registered := by
  unfold async_setup_services
  cases registered with
  | nil => exact absurd rfl h
  | cons a l => rfl

/-- Witness for claim C8 at a concrete already-registered state. -/
theorem async_setup_services_idempotent_witness :
    [SERVICE_PUT_PARAMSET] ≠ ([] : List String) ∧
    async_setup_services [SERVICE_PUT_PARAMSET] = [SERVICE_PUT_PARAMSET] :=
  ⟨by decide, async_setup_services_idempotent [SERVICE_PUT_PARAMSET] (by decide)⟩

/-- Claim C10: the shared dispatcher invokes exactly the one handler whose
service name matches, for each of the six registered names, and invokes no
handler for any other name. -/
theorem async_call_hahm_service_dispatch :
    async_call_hahm_service SERVICE_PUT_PARAMSET = [.putParamset] ∧
    async_call_hahm_service SERVICE_ENABLE_AWAY_MODE_BY_CALENDAR =
      [.enableAwayModeByCalendar] ∧
    async_call_hahm_service SERVICE_DISABLE_AWAY_MODE = [.disableAwayMode] ∧
    async_call_hahm_service SERVICE_SET_INSTALL_MODE = [.setInstallMode] ∧
    async_call_hahm_service SERVICE_SET_DEVICE_VALUE = [.setDeviceValue] ∧
    async_call_hahm_service SERVICE_SET_VARIABLE_VALUE = [.setVariableValue] ∧
    ∀ serviceName : String,
      serviceName ∉
        [SERVICE_PUT_PARAMSET, SERVICE_ENABLE_AWAY_MODE_BY_CALENDAR,
         SERVICE_DISABLE_AWAY_MODE, SERVICE_SET_INSTALL_MODE,
         SERVICE_SET_DEVICE_VALUE, SERVICE_SET_VARIABLE_VALUE] →
      async_call_hahm_service serviceName = [] := by
  refine ⟨by decide, by decide, by decide, by decide, by decide, by decide, ?_⟩
  intro serviceName h
  simp only [List.mem_cons, List.not_mem_nil, or_false, not_or] at h
  obtain ⟨h1, h2, h3, h4, h5, h6⟩ := h
  simp [async_call_hahm_service, h1, h2, h3, h4, h5, h6]

/-- Witness for claim C10 at a service name outside the six. -/
theorem async_call_hahm_service_dispatch_witness :
    async_call_hahm_service "reload" = [] :=
  async_call_hahm_service_dispatch.2.2.2.2.2.2 "reload" (by decide)

/-- Claim C3: `_get_interface_channel_address` returns `none` when the device
id is absent from the registry or its identifiers yield no address/interface
pair, and otherwise returns
`(interface_id, device_address ++ ":" ++ channel)`. -/
theorem interface_channel_address_spec (hass : Hass) (deviceId : String)
    (channel : Int) :
    (dr_async_get hass deviceId = none →
      _get_interface_channel_address hass deviceId channel = none) ∧
    (∀ entry, dr_async_get hass deviceId = some entry →
      get_device_address_at_interface_from_identifiers entry = none →
      _get_interface_channel_address hass deviceId channel = none) ∧
    (∀ entry deviceAddress interfaceId,
      dr_async_get hass deviceId = some entry →
      get_device_address_at_interface_from_identifiers entry =
        some (deviceAddress, interfaceId) →
      _get_interface_channel_address hass deviceId channel =
        some (interfaceId, deviceAddress ++ ":" ++ toString channel)) := by
  refine ⟨fun h => ?_, fun entry h1 h2 => ?_, fun entry a i h1 h2 => ?_⟩
  · simp [_get_interface_channel_address, h]
  · simp [_get_interface_channel_address, h1, h2]
  · simp [_get_interface_channel_address, h1, h2]

/-- Witness for claim C3: a registry with device `d1` at address `ADDR` on
interface `ifc1` resolves channel 1 to `(ifc1, "ADDR:1")`, and an unknown
device id resolves to `none`. -/
theorem interface_channel_address_witness :
    _get_interface_channel_address
        ⟨[("d1", ⟨some ("ADDR", "ifc1")⟩)], []⟩ "d1" 1 =
      some ("ifc1", "ADDR:1") ∧
    _get_interface_channel_address
        ⟨[("d1", ⟨some ("ADDR", "ifc1")⟩)], []⟩ "unknown" 1 = none :=
  ⟨(interface_channel_address_spec ⟨[("d1", ⟨some ("ADDR", "ifc1")⟩)], []⟩
      "d1" 1).2.2 ⟨some ("ADDR", "ifc1")⟩ "ADDR" "ifc1" rfl rfl,
   (interface_channel_address_spec ⟨[("d1", ⟨some ("ADDR", "ifc1")⟩)], []⟩
      "unknown" 1).1 rfl⟩

/-- Claim C4: the `set_device_value` coercion dispatches on `value_type`:
`"int"` parses `"5"` to the integer 5, `"double"` parses `"3.5"` to the float
3.5, `"boolean"` applies Python truthiness, `"dateTime.iso8601"` parses
`"20220101T10:00:00"` with pattern `%Y%m%dT%H:%M:%S`, any other
schema-allowed `value_type` applies `str()`, and an absent `value_type`
leaves the value unchanged. -/
theorem convertValue_spec :
    (∀ v : Value, convertValue none v = .ok v) ∧
    convertValue (some "int") (.vStr "5") = .ok (.vInt 5) ∧
    convertValue (some "double") (.vStr "3.5") = .ok (.vFloat 3.5) ∧
    (∀ v : Value, convertValue (some "boolean") v = .ok (.vBool (pyTruthy v))) ∧
    convertValue (some "dateTime.iso8601") (.vStr "20220101T10:00:00") =
      .ok (.vDateTime 2022 1 1 10 0 0) ∧
    (∀ vt ∈ allowedValueTypes, vt ≠ "int" → vt ≠ "double" → vt ≠ "boolean" →
      vt ≠ "dateTime.iso8601" →
      ∀ v : Value, convertValue (some vt) v = .ok (pyStr v)) := by
  refine ⟨fun v => rfl, by decide, by with_unfolding_all decide, fun v => rfl,
    by decide, ?_⟩
  intro vt hvt h1 h2 h3 h4 v
  fin_cases hvt <;> first
    | exact absurd rfl h1
    | exact absurd rfl h2
    | exact absurd rfl h3
    | exact absurd rfl h4
    | rfl

/-- Witness for claim C4's string-cast clause at `value_type = "string"`. -/
theorem convertValue_witness :
    convertValue (some "string") (.vInt 7) = .ok (.vStr "7") :=
  convertValue_spec.2.2.2.2.2 "string" (by decide) (by decide) (by decide)
    (by decide) (by decide) (.vInt 7)

/-- Running a never-raising per-entity action over a list yields the in-order
concatenation of its per-entity event lists. -/
theorem runForEntities_ok_flatMap (f : HmEntity → Except String (List Event))
    (g : HmEntity → List Event) (hf : ∀ e, f e = .ok (g e)) :
    ∀ l : List HmEntity, runForEntities f l = .ok (l.flatMap g) := by
  intro l
  induction l with
  | nil => rfl
  | cons e rest ih => simp [runForEntities, hf e, ih]

/-- Claim C5: `enable_away_mode_by_calendar` with entity ids `"all"` processes
exactly the climate-platform entities of all control units, in enumeration
order — and that enumeration is the in-order concatenation over the control
units — each thermostat contributing its `enable_away_mode_by_calendar(start,
end, away_temperature)` call followed by a 1-second sleep before the next
entity, each non-thermostat contributing nothing. -/
theorem enable_away_mode_all_trace (hass : Hass) (start finish : Value)
    (awayTemp : Rat) :
    _async_service_enable_away_mode_by_calendar hass bkOk
        ⟨.all, start, finish, awayTemp⟩ =
      .ok ((_get_entities_by_platform hass .climate).flatMap
        (fun e => if e.isIPThermostat then
          [.enableAwayMode e.name start finish awayTemp, .sleep 1] else [])) ∧
    _get_entities_by_platform hass .climate =
      hass.controlUnits.flatMap
        (fun cu => cu.entities.filter (fun e => e.platform == .climate)) := by
  constructor
  · apply runForEntities_ok_flatMap
    intro e
    by_cases h : e.isIPThermostat <;>
      simp [_enable_away_mode_by_calendar, bkCall, bkOk, h]
  · rfl

/-- Claim C6: `disable_away_mode` on an entity id resolving to a
non-thermostat entity performs no backend call and no other effect, whatever
the backend would do. -/
theorem disable_away_mode_non_thermostat_noop (hass : Hass) (bk : Backend)
    (entityId : String) (e : HmEntity) (h1 : _get_entity hass entityId = some e)
    (h2 : e.isIPThermostat = false) :
    _async_service_disable_away_mode hass bk ⟨.ids [entityId]⟩ = .ok [] := by
  simp [_async_service_disable_away_mode, runForEntityIds, h1,
    _disable_away_mode, h2]

/-- Witness for claim C6: a control unit holding one non-thermostat climate
entity; disabling away mode on its id emits nothing. -/
theorem disable_away_mode_non_thermostat_noop_witness :
    _async_service_disable_away_mode
        ⟨[], [⟨[], [⟨"climate.wall", "Wall", false, .climate⟩], none⟩]⟩
        ⟨none, none, none, none, none, some "boom"⟩
        ⟨.ids ["climate.wall"]⟩ = .ok [] :=
  disable_away_mode_non_thermostat_noop
    ⟨[], [⟨[], [⟨"climate.wall", "Wall", false, .climate⟩], none⟩]⟩
    ⟨none, none, none, none, none, some "boom"⟩
    "climate.wall" ⟨"climate.wall", "Wall", false, .climate⟩ rfl rfl

/-- A channel address `device_address ++ ":" ++ channel` is never the empty
string. -/
theorem append_colon_ne_empty (a b : String) : a ++ ":" ++ b ≠ "" := by
  intro h
  have h2 : (a ++ ":" ++ b).length = String.length "" := congrArg String.length h
  simp only [String.length_append] at h2
  have h3 : String.length ":" = 1 := rfl
  have h4 : String.length "" = 0 := rfl
  omega

/-- A routing pair produced by `_get_interface_channel_address` always has a
non-empty (truthy) channel address. -/
theorem interface_channel_address_snd_ne_empty (hass : Hass) (deviceId : String)
    (channel : Int) (interfaceId channelAddress : String)
    (h : _get_interface_channel_address hass deviceId channel =
      some (interfaceId, channelAddress)) :
    channelAddress ≠ "" := by
  cases h1 : dr_async_get hass deviceId with
  | none => simp [_get_interface_channel_address, h1] at h
  | some entry =>
      cases h2 : get_device_address_at_interface_from_identifiers entry with
      | none => simp [_get_interface_channel_address, h1, h2] at h
      | some p =>
          obtain ⟨a, i⟩ := p
          simp only [_get_interface_channel_address, h1, h2,
            Option.some.injEq, Prod.mk.injEq] at h
          rw [← h.2]
          exact append_colon_ne_empty a (toString channel)

/-- The dispatch condition claim C2 states: the device id resolves to a
routing pair and the resolved interface id has an active client in some
control unit. -/
def claimedDispatchCondition (hass : Hass) (deviceId : String)
    (channel : Int) : Bool :=
  match _get_interface_channel_address hass deviceId channel with
  | none => false
  | some (interfaceId, _) => (_get_cu_by_interface_id hass interfaceId).isSome

/-- The dispatch condition the code enforces: additionally the resolved
interface id must be truthy (non-empty), from the handlers'
`if interface_id and channel_address:` guard (the channel address is always
non-empty). -/
def dispatchCondition (hass : Hass) (deviceId : String) (channel : Int) : Bool :=
  match _get_interface_channel_address hass deviceId channel with
  | none => false
  | some (interfaceId, _) =>
      interfaceId != "" && (_get_cu_by_interface_id hass interfaceId).isSome

/-- Claim C2 counterexample: with a registry entry decoding to an empty
interface id and a control unit holding an active client under that empty id,
the claim's condition holds — the id resolves and has an active client — yet
`set_device_value` returns without invoking the backend, refuting the claimed
"if and only if". -/
theorem set_device_value_claimed_iff_counterexample :
    claimedDispatchCondition
        ⟨[("d1", ⟨some ("ADDR", "")⟩)], [⟨[""], [], none⟩]⟩ "d1" 1 = true ∧
    _async_service_set_device_value
        ⟨[("d1", ⟨some ("ADDR", "")⟩)], [⟨[""], [], none⟩]⟩ bkOk
        ⟨"d1", 1, "STATE", .vBool true, none, none⟩ = .ok [] := by
  decide

/-- Claim C2 amended: for `set_device_value` (when the value coercion
succeeds) and `put_paramset`, the handler never raises, and it invokes the
backend operation if and only if the device id resolves to a routing pair
whose interface id is non-empty and has an active client in some control
unit; otherwise it returns with no backend call and no error. -/
theorem device_backend_dispatch_iff (hass : Hass) (dS : SetDeviceValueData)
    (dP : PutParamsetData) (v : Value)
    (hc : convertValue dS.valueType dS.value = .ok v) :
    (∃ evs, _async_service_set_device_value hass bkOk dS = .ok evs ∧
      (evs ≠ [] ↔ dispatchCondition hass dS.deviceId dS.channel = true)) ∧
    (∃ evs, _async_service_put_paramset hass bkOk dP = .ok evs ∧
      (evs ≠ [] ↔ dispatchCondition hass dP.deviceId dP.channel = true)) := by
  constructor
  · cases h1 : _get_interface_channel_address hass dS.deviceId dS.channel with
    | none =>
        refine ⟨[], ?_, ?_⟩ <;>
          simp [_async_service_set_device_value, dispatchCondition, hc, h1]
    | some p =>
        obtain ⟨iid, ca⟩ := p
        have hca : (ca != "") = true :=
          bne_iff_ne.mpr
            (interface_channel_address_snd_ne_empty hass dS.deviceId dS.channel
              iid ca h1)
        cases h2 : _get_cu_by_interface_id hass iid with
        | none =>
            refine ⟨[], ?_, ?_⟩ <;> cases hb : (iid != "") <;>
              simp [_async_service_set_device_value, dispatchCondition, hc,
                h1, h2, hca, hb]
        | some cu =>
            by_cases hiid : iid = ""
            · subst hiid
              refine ⟨[], ?_, ?_⟩ <;>
                simp [_async_service_set_device_value, dispatchCondition, hc,
                  h1, h2]
            · have hiid' : (iid != "") = true := bne_iff_ne.mpr hiid
              refine ⟨[.setValue iid ca dS.parameter v dS.rxMode], ?_, ?_⟩ <;>
                simp [_async_service_set_device_value, dispatchCondition, hc,
                  h1, h2, hca, hiid', bkCall, bkOk]
  · cases h1 : _get_interface_channel_address hass dP.deviceId dP.channel with
    | none =>
        refine ⟨[], ?_, ?_⟩ <;>
          simp [_async_service_put_paramset, dispatchCondition, h1]
    | some p =>
        obtain ⟨iid, ca⟩ := p
        have hca : (ca != "") = true :=
          bne_iff_ne.mpr
            (interface_channel_address_snd_ne_empty hass dP.deviceId dP.channel
              iid ca h1)
        cases h2 : _get_cu_by_interface_id hass iid with
        | none =>
            refine ⟨[], ?_, ?_⟩ <;> cases hb : (iid != "") <;>
              simp [_async_service_put_paramset, dispatchCondition, h1, h2,
                hca, hb]
        | some cu =>
            by_cases hiid : iid = ""
            · subst hiid
              refine ⟨[], ?_, ?_⟩ <;>
                simp [_async_service_put_paramset, dispatchCondition, h1, h2]
            · have hiid' : (iid != "") = true := bne_iff_ne.mpr hiid
              refine ⟨[.putParamset iid ca dP.paramsetKey dP.paramset dP.rxMode],
                  ?_, ?_⟩ <;>
                simp [_async_service_put_paramset, dispatchCondition, h1, h2,
                  hca, hiid', bkCall, bkOk]

/-- Witness for the amended claim C2 at a concrete resolving state. -/
theorem device_backend_dispatch_iff_witness :
    (∃ evs, _async_service_set_device_value
        ⟨[("d2", ⟨some ("ADR2", "ifc2")⟩)], [⟨["ifc2"], [], none⟩]⟩ bkOk
        ⟨"d2", 1, "STATE", .vBool true, none, none⟩ = .ok evs ∧
      (evs ≠ [] ↔ dispatchCondition
        ⟨[("d2", ⟨some ("ADR2", "ifc2")⟩)], [⟨["ifc2"], [], none⟩]⟩ "d2" 1 = true)) ∧
    (∃ evs, _async_service_put_paramset
        ⟨[("d2", ⟨some ("ADR2", "ifc2")⟩)], [⟨["ifc2"], [], none⟩]⟩ bkOk
        ⟨"d2", 1, "MASTER", [], none⟩ = .ok evs ∧
      (evs ≠ [] ↔ dispatchCondition
        ⟨[("d2", ⟨some ("ADR2", "ifc2")⟩)], [⟨["ifc2"], [], none⟩]⟩ "d2" 1 = true)) :=
  device_backend_dispatch_iff
    ⟨[("d2", ⟨some ("ADR2", "ifc2")⟩)], [⟨["ifc2"], [], none⟩]⟩
    ⟨"d2", 1, "STATE", .vBool true, none, none⟩
    ⟨"d2", 1, "MASTER", [], none⟩ (.vBool true) rfl

/-- A backend whose `set_value` raises. -/
def bkSetValueRaises (msg : String) : Backend :=
  ⟨some msg, none, none, none, none, none⟩

/-- A backend whose `put_paramset` raises. -/
def bkPutParamsetRaises (msg : String) : Backend :=
  ⟨none, some msg, none, none, none, none⟩

/-- A backend whose `set_install_mode` raises. -/
def bkSetInstallModeRaises (msg : String) : Backend :=
  ⟨none, none, some msg, none, none, none⟩

/-- A backend whose `set_variable` raises. -/
def bkSetVariableRaises (msg : String) : Backend :=
  ⟨none, none, none, some msg, none, none⟩

/-- A backend whose `enable_away_mode_by_calendar` raises. -/
def bkEnableAwayRaises (msg : String) : Backend :=
  ⟨none, none, none, none, some msg, none⟩

/-- A backend whose `disable_away_mode` raises. -/
def bkDisableAwayRaises (msg : String) : Backend :=
  ⟨none, none, none, none, none, some msg⟩

/-- If the per-entity action raises on thermostats and is silent on
non-thermostats, a list containing a thermostat makes the whole loop raise
(the error escapes the `for` loop). -/
theorem runForEntities_error_of_any_thermostat
    (f : HmEntity → Except String (List Event)) (msg : String)
    (hth : ∀ e : HmEntity, e.isIPThermostat = true → f e = .error msg)
    (hsk : ∀ e : HmEntity, e.isIPThermostat = false → f e = .ok []) :
    ∀ l : List HmEntity, l.any (fun e => e.isIPThermostat) = true →
      runForEntities f l = .error msg := by
  intro l
  induction l with
  | nil => intro h; cases h
  | cons e rest ih =>
      intro h
      cases hth2 : e.isIPThermostat with
      | true => simp [runForEntities, hth e hth2]
      | false =>
          simp only [List.any_cons, hth2, Bool.false_or] at h
          simp [runForEntities, hsk e hth2, ih h]

/-- Claim C9: no handler catches backend exceptions — whenever a handler
reaches a backend call (`set_value`, `put_paramset`, `set_install_mode`,
`set_variable`, `enable_away_mode_by_calendar`, `disable_away_mode`) and that
call raises, the handler propagates the same exception, with no retry and no
local recovery. -/
theorem backend_exceptions_propagate (hass : Hass) (msg : String) :
    (∀ (d : SetDeviceValueData) (v : Value),
      convertValue d.valueType d.value = .ok v →
      dispatchCondition hass d.deviceId d.channel = true →
      _async_service_set_device_value hass (bkSetValueRaises msg) d =
        .error msg) ∧
    (∀ d : PutParamsetData,
      dispatchCondition hass d.deviceId d.channel = true →
      _async_service_put_paramset hass (bkPutParamsetRaises msg) d =
        .error msg) ∧
    (∀ d : SetInstallModeData,
      (_get_cu_by_interface_id hass d.interfaceId).isSome = true →
      _async_service_set_install_mode hass (bkSetInstallModeRaises msg) d =
        .error msg) ∧
    (∀ d : SetVariableValueData,
      (_get_hub_by_entity_id hass d.entityId).isSome = true →
      _async_service_set_variable_value hass (bkSetVariableRaises msg) d =
        .error msg) ∧
    (∀ (start finish : Value) (awayTemp : Rat),
      (_get_entities_by_platform hass .climate).any
          (fun e => e.isIPThermostat) = true →
      _async_service_enable_away_mode_by_calendar hass
          (bkEnableAwayRaises msg) ⟨.all, start, finish, awayTemp⟩ =
        .error msg) ∧
    ((_get_entities_by_platform hass .climate).any
          (fun e => e.isIPThermostat) = true →
      _async_service_disable_away_mode hass (bkDisableAwayRaises msg)
          ⟨.all⟩ = .error msg) := by
  refine ⟨?_, ?_, ?_, ?_, ?_, ?_⟩
  · intro d v hc hcond
    cases h1 : _get_interface_channel_address hass d.deviceId d.channel with
    | none => simp [dispatchCondition, h1] at hcond
    | some p =>
        obtain ⟨iid, ca⟩ := p
        simp only [dispatchCondition, h1] at hcond
        cases h2 : _get_cu_by_interface_id hass iid with
        | none => simp [h2] at hcond
        | some cu =>
            have hca : (ca != "") = true :=
              bne_iff_ne.mpr (interface_channel_address_snd_ne_empty hass
                d.deviceId d.channel iid ca h1)
            simp only [h2, Option.isSome_some, Bool.and_true] at hcond
            simp [_async_service_set_device_value, hc, h1, h2, hca, hcond,
              bkCall, bkSetValueRaises]
  · intro d hcond
    cases h1 : _get_interface_channel_address hass d.deviceId d.channel with
    | none => simp [dispatchCondition, h1] at hcond
    | some p =>
        obtain ⟨iid, ca⟩ := p
        simp only [dispatchCondition, h1] at hcond
        cases h2 : _get_cu_by_interface_id hass iid with
        | none => simp [h2] at hcond
        | some cu =>
            have hca : (ca != "") = true :=
              bne_iff_ne.mpr (interface_channel_address_snd_ne_empty hass
                d.deviceId d.channel iid ca h1)
            simp only [h2, Option.isSome_some, Bool.and_true] at hcond
            simp [_async_service_put_paramset, h1, h2, hca, hcond, bkCall,
              bkPutParamsetRaises]
  · intro d hcond
    cases h2 : _get_cu_by_interface_id hass d.interfaceId with
    | none => simp [h2] at hcond
    | some cu =>
        simp [_async_service_set_install_mode, h2, bkCall,
          bkSetInstallModeRaises]
  · intro d hcond
    cases h2 : _get_hub_by_entity_id hass d.entityId with
    | none => simp [h2] at hcond
    | some hub =>
        simp [_async_service_set_variable_value, h2, bkCall,
          bkSetVariableRaises]
  · intro start finish awayTemp h
    refine runForEntities_error_of_any_thermostat _ msg ?_ ?_ _ h
    · intro e he
      simp [_enable_away_mode_by_calendar, he, bkCall, bkEnableAwayRaises]
    · intro e he
      simp [_enable_away_mode_by_calendar, he]
  · intro h
    refine runForEntities_error_of_any_thermostat _ msg ?_ ?_ _ h
    · intro e he
      simp [_disable_away_mode, he, bkCall, bkDisableAwayRaises]
    · intro e he
      simp [_disable_away_mode, he]

/-- Witness for claim C9: one concrete state — a registry device on `ifc1`, a
control unit with a client for `ifc1`, a thermostat climate entity, and a hub
— where each of the six backend operations, made to raise `"boom"`, aborts
its handler with `"boom"`. -/
theorem backend_exceptions_propagate_witness :
    _async_service_set_device_value
        ⟨[("d1", ⟨some ("ADDR", "ifc1")⟩)],
         [⟨["ifc1"], [⟨"climate.t", "T", true, .climate⟩], some ⟨"hub1"⟩⟩]⟩
        (bkSetValueRaises "boom") ⟨"d1", 1, "STATE", .vBool true, none, none⟩ =
      .error "boom" ∧
    _async_service_put_paramset
        ⟨[("d1", ⟨some ("ADDR", "ifc1")⟩)],
         [⟨["ifc1"], [⟨"climate.t", "T", true, .climate⟩], some ⟨"hub1"⟩⟩]⟩
        (bkPutParamsetRaises "boom") ⟨"d1", 1, "MASTER", [], none⟩ =
      .error "boom" ∧
    _async_service_set_install_mode
        ⟨[("d1", ⟨some ("ADDR", "ifc1")⟩)],
         [⟨["ifc1"], [⟨"climate.t", "T", true, .climate⟩], some ⟨"hub1"⟩⟩]⟩
        (bkSetInstallModeRaises "boom") ⟨"ifc1", 60, 1, none⟩ =
      .error "boom" ∧
    _async_service_set_variable_value
        ⟨[("d1", ⟨some ("ADDR", "ifc1")⟩)],
         [⟨["ifc1"], [⟨"climate.t", "T", true, .climate⟩], some ⟨"hub1"⟩⟩]⟩
        (bkSetVariableRaises "boom") ⟨"hub1", "var", .vInt 1⟩ =
      .error "boom" ∧
    _async_service_enable_away_mode_by_calendar
        ⟨[("d1", ⟨some ("ADDR", "ifc1")⟩)],
         [⟨["ifc1"], [⟨"climate.t", "T", true, .climate⟩], some ⟨"hub1"⟩⟩]⟩
        (bkEnableAwayRaises "boom")
        ⟨.all, .vDateTime 2022 1 1 0 0 0, .vDateTime 2022 1 2 0 0 0, 18⟩ =
      .error "boom" ∧
    _async_service_disable_away_mode
        ⟨[("d1", ⟨some ("ADDR", "ifc1")⟩)],
         [⟨["ifc1"], [⟨"climate.t", "T", true, .climate⟩], some ⟨"hub1"⟩⟩]⟩
        (bkDisableAwayRaises "boom") ⟨.all⟩ = .error "boom" :=
  ⟨(backend_exceptions_propagate _ "boom").1 _ (.vBool true) rfl (by decide),
   (backend_exceptions_propagate _ "boom").2.1 _ (by decide),
   (backend_exceptions_propagate _ "boom").2.2.1 _ (by decide),
   (backend_exceptions_propagate _ "boom").2.2.2.1 _ (by decide),
   (backend_exceptions_propagate _ "boom").2.2.2.2.1 _ _ 18 (by decide),
   (backend_exceptions_propagate _ "boom").2.2.2.2.2 (by decide)⟩

/-- Claim C7: an `away_set_point_temperature` outside `[4.5, 30.5]` makes
schema validation fail, so the registered service call errors before any
dispatch or entity-lookup logic runs — for every system state and backend,
the call's outcome is the schema error and no handler work happens; and an
omitted `away_set_point_temperature` validates to the default `18.0`. -/
theorem away_temp_schema_spec :
    (∀ (hass : Hass) (bk : Backend) (raw : RawData) (q : Rat),
      rawLookup raw ATTR_AWAY_SET_POINT_TEMPERATURE = some (.vFloat q) →
      ¬(4.5 ≤ q ∧ q ≤ 30.5) →
      ∃ e, SCHEMA_SERVICE_ENABLE_AWAY_MODE_BY_CALENDAR raw = .error e ∧
        enable_away_mode_service_call hass bk raw = .error e) ∧
    (∀ (raw : RawData) (d : AwayModeData),
      rawLookup raw ATTR_AWAY_SET_POINT_TEMPERATURE = none →
      SCHEMA_SERVICE_ENABLE_AWAY_MODE_BY_CALENDAR raw = .ok d →
      d.awayTemp = 18) := by
  constructor
  · intro hass bk raw q hq hrange
    have hschema : ∃ e,
        SCHEMA_SERVICE_ENABLE_AWAY_MODE_BY_CALENDAR raw = .error e := by
      unfold SCHEMA_SERVICE_ENABLE_AWAY_MODE_BY_CALENDAR
      split
      · exact ⟨_, rfl⟩
      · split
        · exact ⟨_, rfl⟩
        · split
          · exact ⟨_, rfl⟩
          · split
            · exact ⟨_, rfl⟩
            · split
              · exact ⟨_, rfl⟩
              · split
                · exact ⟨_, rfl⟩
                · split
                  · exact ⟨_, rfl⟩
                  · rw [hq]
                    simp only [Option.getD_some, vol_coerce_float, pyFloat]
                    simp only [vol_range_away_temp, if_neg hrange]
                    exact ⟨_, rfl⟩
    obtain ⟨e, he⟩ := hschema
    exact ⟨e, he, by simp [enable_away_mode_service_call, he]⟩
  · intro raw d hq hok
    unfold SCHEMA_SERVICE_ENABLE_AWAY_MODE_BY_CALENDAR at hok
    rw [hq] at hok
    simp only [Option.getD_none, vol_coerce_float, pyFloat] at hok
    have h18 : vol_range_away_temp 18.0 = .ok 18.0 := by
      unfold vol_range_away_temp
      rw [if_pos (by norm_num)]
    rw [h18] at hok
    split at hok
    · cases hok
    · split at hok
      · cases hok
      · split at hok
        · cases hok
        · split at hok
          · cases hok
          · split at hok
            · cases hok
            · split at hok
              · cases hok
              · split at hok
                · cases hok
                · cases hok
                  norm_num

/-- Witness for claim C7: a raw call with temperature `40.0` is rejected (the
handler never runs, for an arbitrary state and backend), and the same raw
call without the temperature key validates with default `18.0`. -/
theorem away_temp_schema_witness :
    (∃ e, SCHEMA_SERVICE_ENABLE_AWAY_MODE_BY_CALENDAR
        [(ATTR_ENTITY_ID, .vStr "all"),
         (ATTR_AWAY_START_TIME, .vDateTime 2022 1 1 0 0 0),
         (ATTR_AWAY_END_TIME, .vDateTime 2022 1 2 0 0 0),
         (ATTR_AWAY_SET_POINT_TEMPERATURE, .vFloat 40.0)] = .error e ∧
      enable_away_mode_service_call ⟨[], []⟩ bkOk
        [(ATTR_ENTITY_ID, .vStr "all"),
         (ATTR_AWAY_START_TIME, .vDateTime 2022 1 1 0 0 0),
         (ATTR_AWAY_END_TIME, .vDateTime 2022 1 2 0 0 0),
         (ATTR_AWAY_SET_POINT_TEMPERATURE, .vFloat 40.0)] = .error e) ∧
    (SCHEMA_SERVICE_ENABLE_AWAY_MODE_BY_CALENDAR
        [(ATTR_ENTITY_ID, .vStr "all"),
         (ATTR_AWAY_START_TIME, .vDateTime 2022 1 1 0 0 0),
         (ATTR_AWAY_END_TIME, .vDateTime 2022 1 2 0 0 0)] =
      .ok ⟨.all, .vDateTime 2022 1 1 0 0 0, .vDateTime 2022 1 2 0 0 0, 18.0⟩ →
      (AwayModeData.mk .all (.vDateTime 2022 1 1 0 0 0)
        (.vDateTime 2022 1 2 0 0 0) 18.0).awayTemp = 18) ∧
    SCHEMA_SERVICE_ENABLE_AWAY_MODE_BY_CALENDAR
        [(ATTR_ENTITY_ID, .vStr "all"),
         (ATTR_AWAY_START_TIME, .vDateTime 2022 1 1 0 0 0),
         (ATTR_AWAY_END_TIME, .vDateTime 2022 1 2 0 0 0)] =
      .ok ⟨.all, .vDateTime 2022 1 1 0 0 0, .vDateTime 2022 1 2 0 0 0, 18.0⟩ :=
  ⟨away_temp_schema_spec.1 ⟨[], []⟩ bkOk
      [(ATTR_ENTITY_ID, .vStr "all"),
       (ATTR_AWAY_START_TIME, .vDateTime 2022 1 1 0 0 0),
       (ATTR_AWAY_END_TIME, .vDateTime 2022 1 2 0 0 0),
       (ATTR_AWAY_SET_POINT_TEMPERATURE, .vFloat 40.0)] 40.0 rfl
      (by norm_num),
   away_temp_schema_spec.2
      [(ATTR_ENTITY_ID, .vStr "all"),
       (ATTR_AWAY_START_TIME, .vDateTime 2022 1 1 0 0 0),
       (ATTR_AWAY_END_TIME, .vDateTime 2022 1 2 0 0 0)]
      ⟨.all, .vDateTime 2022 1 1 0 0 0, .vDateTime 2022 1 2 0 0 0, 18.0⟩ rfl,
   by with_unfolding_all decide⟩

end HahmServices
